import Mathlib

/-!
# Verification of the napps-server core against its specification

Shallow embedding of the napps-server repository (files `api/users.py`,
`core/models.py`, `napps_server/api/napps.py`) in Lean 4, together with
theorems settling the frozen claims about the code.

Modelling conventions:
* The redis store is modelled as association lists from key strings to
  records, plus explicit membership sets (`sadd`), preserving the key
  conventions `user:<name>`, `token:<hash>`, `user:<name>:tokens`.
* Wall-clock time (`datetime.utcnow()`) is modelled as a `Nat` timestamp
  for the lifecycle claims; the calendar/string form of `datetime` is
  modelled structurally in the serialization section, where the textual
  round trip of `created_at` matters.
* Python exceptions are modelled with `Except PyErr`; routes that catch
  an exception and return an error response are total functions into a
  result type.
* Values stored in redis are stringified with `str()` and reconstructed
  with `eval()`/`strptime`/`int()`.  For `bool` and list-of-string values
  these conversions are exact mutual inverses in Python, and the store
  round trip of those fields is modelled accordingly; the `datetime`
  stringification, whose round trip is *not* exact, is modelled
  explicitly character by character.
-/

/-- Python exceptions raised by the modelled code paths. -/
inductive PyErr where
  | nappsEntryDoesNotExists
  | keyError
  | valueError
  | typeError
  | attributeError
  | invalidAuthor
  | invalidNappMetaData
  | repositoryNotReachable
  deriving DecidableEq, Repr

instance {ε α : Type} [DecidableEq ε] [DecidableEq α] :
    DecidableEq (Except ε α) := fun a b =>
  match a, b with
  | .ok x, .ok y =>
      if h : x = y then .isTrue (by rw [h]) else .isFalse (by simp [h])
  | .error e, .error e' =>
      if h : e = e' then .isTrue (by rw [h]) else .isFalse (by simp [h])
  | .ok _, .error _ => .isFalse (by simp)
  | .error _, .ok _ => .isFalse (by simp)

/-- Association-list lookup for string-keyed stores (redis hash/record access). -/
def alookup {α : Type} : List (String × α) → String → Option α
  | [], _ => none
  | (k, v) :: rest, key => if k = key then some v else alookup rest key

/-- Association-list update: `hmset` semantics (insert or overwrite in place). -/
def assocSet {α : Type} : List (String × α) → String → α → List (String × α)
  | [], k, v => [(k, v)]
  | (k', v') :: rest, k, v =>
      if k' = k then (k, v) :: rest else (k', v') :: assocSet rest k v

/-- Redis `sadd`: add a member to a set, a no-op when already present. -/
def saddL (s : List String) (k : String) : List String :=
  if k ∈ s then s else k :: s

theorem alookup_assocSet_self {α : Type} (l : List (String × α)) (k : String) (v : α) :
    alookup (assocSet l k v) k = some v := by
  induction l with
  | nil => simp [alookup, assocSet]
  | cons p rest ih =>
      obtain ⟨k', v'⟩ := p
      by_cases h : k' = k
      · simp [assocSet, h, alookup]
      · simp [assocSet, h, alookup, ih]

theorem alookup_assocSet_ne {α : Type} (l : List (String × α)) (k k' : String) (v : α)
    (h : k' ≠ k) : alookup (assocSet l k v) k' = alookup l k' := by
  induction l with
  | nil => simp [alookup, assocSet, h, Ne.symm h]
  | cons p rest ih =>
      obtain ⟨k₀, v₀⟩ := p
      by_cases hk : k₀ = k
      · subst hk
        simp [assocSet, alookup, h, Ne.symm h]
      · by_cases hk' : k₀ = k'
        · simp [assocSet, hk, alookup, hk', h]
        · simp [assocSet, hk, alookup, hk', ih]

theorem alookup_assocSet_isSome {α : Type} (l : List (String × α)) (k k' : String) (v : α)
    (h : (alookup l k').isSome) : (alookup (assocSet l k v) k').isSome := by
  by_cases hk : k' = k
  · subst hk; simp [alookup_assocSet_self]
  · rwa [alookup_assocSet_ne l k k' v hk]

theorem assocSet_assocSet_self {α : Type} (l : List (String × α)) (k : String) (v : α) :
    assocSet (assocSet l k v) k v = assocSet l k v := by
  induction l with
  | nil => simp [assocSet]
  | cons p rest ih =>
      obtain ⟨k', v'⟩ := p
      by_cases h : k' = k
      · simp [assocSet, h]
      · simp [assocSet, h, ih]

theorem saddL_saddL_self (s : List String) (k : String) : saddL (saddL s k) k = saddL s k := by
  by_cases h : k ∈ s
  · simp [saddL, h]
  · simp [saddL, h]

/-! ## Identity & token manager (`core/models.py`: `User`, `Token`; `api/users.py`)

The lifecycle model: time is a `Nat` timestamp, `Token.created_at` included.
The textual (de)serialization of `created_at` is treated in the
serialization section below; it is exact for timestamps whose microsecond
component is nonzero, which is what this model assumes.  -/

namespace Models

/-- `Token` entity (`core/models.py`).  `user` holds the owning user's
username (the Python object keeps a `User` reference, written back as the
username by `as_dict` and looked up again by `from_dict`). -/
structure TokenRec where
  hash : String
  created_at : Nat
  user : String
  expiration_time : Nat := 86400
  deriving DecidableEq, Repr

/-- `User` entity (`core/models.py`).  `password = none` models the
attribute never having been assigned (fresh `__init__` output); `User.get`
always yields a record with the stored password. -/
structure UserRec where
  username : String
  email : String
  first_name : String
  last_name : String
  phone : Option String := none
  city : Option String := none
  state : Option String := none
  country : Option String := none
  enabled : Bool := false
  password : Option String := none
  deriving DecidableEq, Repr

/-- The redis database: membership sets `users`/`tokens`, the per-key
hashes for users and tokens, and the per-user token lists
(`user:<name>:tokens`, most recent first). -/
structure DB where
  usersSet : List String := []
  users : List (String × UserRec) := []
  tokensSet : List String := []
  tokens : List (String × TokenRec) := []
  tokenLists : List (String × List String) := []
  deriving DecidableEq, Repr

def userKey (username : String) : String := "user:" ++ username

def userTokensKey (username : String) : String := "user:" ++ username ++ ":tokens"

def TokenRec.redis_key (t : TokenRec) : String := "token:" ++ t.hash

def UserRec.redis_key (u : UserRec) : String := userKey u.username

/-- `Token.expires_at`: `created_at + timedelta(seconds=expiration_time)`. -/
def TokenRec.expires_at (t : TokenRec) : Nat := t.created_at + t.expiration_time

/-- `Token.is_valid`: `datetime.utcnow() <= self.expires_at`. -/
def TokenRec.is_valid (now : Nat) (t : TokenRec) : Bool :=
  decide (now ≤ t.expires_at)

/-- `Token.save`: `sadd("tokens", key)` then `hmset(key, as_dict())`. -/
def TokenRec.save (db : DB) (t : TokenRec) : DB :=
  { db with tokensSet := saddL db.tokensSet t.redis_key,
            tokens := assocSet db.tokens t.redis_key t }

/-- `Token.invalidate`: set `expiration_time = 0` and persist. -/
def TokenRec.invalidate (db : DB) (t : TokenRec) : DB × TokenRec :=
  let t' : TokenRec := { t with expiration_time := 0 }
  (t'.save db, t')

/-- `User.get`: `hgetall("user:<name>")`; raises `NappsEntryDoesNotExists`
when the hash is empty, otherwise yields the stored record (password
included, as in the source). -/
def UserRec.get (db : DB) (username : String) : Except PyErr UserRec :=
  match alookup db.users (userKey username) with
  | some u => .ok u
  | none => .error .nappsEntryDoesNotExists

/-- `Token.from_dict` applied to a stored token hash: the string fields
round-trip exactly (serialization section), and `User.get` is performed on
the owner, raising `NappsEntryDoesNotExists` when the owner is gone. -/
def TokenRec.from_dict (db : DB) (t : TokenRec) : Except PyErr TokenRec :=
  match alookup db.users (userKey t.user) with
  | some _ => .ok t
  | none => .error .nappsEntryDoesNotExists

/-- `User.save`: requires `self.password` to be set (`AttributeError` when
the attribute was never assigned, the `if not self.password` guard raises
`InvalidAuthor` on a falsy value); then `sadd("users", key)` and
`hmset(key, as_dict(hide_sensible=False, detailed=True))`. -/
def UserRec.save (db : DB) (u : UserRec) : Except PyErr DB :=
  match u.password with
  | none => .error .attributeError
  | some p =>
      if p = "" then .error .invalidAuthor
      else .ok { db with usersSet := saddL db.usersSet u.redis_key,
                         users := assocSet db.users u.redis_key u }

/-- `User.token` property: read only index 0 of `user:<name>:tokens`
(`lrange(key, 0, 0)[0]`); `IndexError` on an empty list yields `None`;
otherwise `hgetall` the token key (an empty hash makes `Token.from_dict`
raise `KeyError`), reconstruct the token, and return it only when
`is_valid`. -/
def UserRec.token (db : DB) (now : Nat) (username : String) :
    Except PyErr (Option TokenRec) :=
  match ((alookup db.tokenLists (userTokensKey username)).getD []).head? with
  | none => .ok none
  | some k =>
      match alookup db.tokens k with
      | none => .error .keyError
      | some attrs => do
          let t ← TokenRec.from_dict db attrs
          if t.is_valid now then pure (some t) else pure none

/-- `User.enable`: set `enabled = True` and save. -/
def UserRec.enable (db : DB) (u : UserRec) : Except PyErr DB :=
  UserRec.save db { u with enabled := true }

/-- `User.create_token`: build a token with a fresh hash (`os.urandom`
randomness supplied as `freshHash`), save it, and `lpush` its key onto
`user:<name>:tokens`. -/
def UserRec.create_token (db : DB) (now : Nat) (u : UserRec) (freshHash : String)
    (expiration_time : Nat := 86400) : DB × TokenRec :=
  let t : TokenRec :=
    { hash := freshHash, created_at := now, user := u.username,
      expiration_time := expiration_time }
  let db1 := t.save db
  let key := userTokensKey u.username
  ({ db1 with
      tokenLists :=
        assocSet db1.tokenLists key
          (t.redis_key :: (alookup db1.tokenLists key).getD []) }, t)

end Models

namespace UsersApi

open Models

/-- Outcome of the `/api/users/<username>/confirm/<token>/` route. -/
inductive ConfirmRes where
  | confirmed      -- HTTP 200
  | userNotFound   -- HTTP 404, "User not found"
  | invalidToken   -- HTTP 400, "Invalid token"
  deriving DecidableEq, Repr

/-- `confirm_user` (`api/users.py`): look the user up (404 when missing);
`user.token` must yield a token (400 otherwise); the presented hash must
equal that token's hash and the token must be valid (400 otherwise); then
`user.enable()`, re-read `user.token` and `invalidate()` it (the welcome
mail is an external side effect).  The property reads hit the same store
state, so the repeated `user.token` reads before the checks are bound
once. -/
def confirm_user (db : DB) (now : Nat) (username tokenHash : String) :
    Except PyErr (ConfirmRes × DB) :=
  match UserRec.get db username with
  | .error _ => .ok (.userNotFound, db)
  | .ok user => do
      let t? ← UserRec.token db now username
      match t? with
      | none => pure (.invalidToken, db)
      | some t =>
          if t.hash ≠ tokenHash ∨ t.is_valid now = false then
            pure (.invalidToken, db)
          else do
            let db1 ← UserRec.enable db user
            let t2? ← UserRec.token db1 now username
            match t2? with
            | none => throw .attributeError   -- None.invalidate()
            | some t2 => pure (.confirmed, (TokenRec.invalidate db1 t2).1)

/-- Outcome of `POST /api/users/`. -/
inductive RegisterRes where
  | duplicateUsername          -- HTTP 401, "Username already exists"
  | created                    -- HTTP 201
  | pyError (e : PyErr)        -- uncaught exception
  deriving DecidableEq, Repr

/-- The validated JSON body of a registration request (presence of the
required fields is enforced by the schema-validation decorator, an
external collaborator). -/
structure RegisterContent where
  username : String
  password : String
  email : String
  first_name : String
  last_name : String
  deriving DecidableEq, Repr

/-- The keyword parameters accepted by `User.__init__` (`core/models.py`):
`username, email, first_name, last_name, phone, city, state, country,
enabled` — note the absence of `password`. -/
def userInitParamNames : List String :=
  ["username", "email", "first_name", "last_name",
   "phone", "city", "state", "country", "enabled"]

/-- A Python keyword call of `User.__init__`: an unexpected keyword raises
`TypeError`; otherwise the named fields are assigned and `password` stays
unassigned. -/
def pyCallUserInit (kwargs : List (String × String)) : Except PyErr UserRec :=
  if kwargs.all (fun kv => userInitParamNames.contains kv.1) then
    .ok { username := (alookup kwargs "username").getD "",
          email := (alookup kwargs "email").getD "",
          first_name := (alookup kwargs "first_name").getD "",
          last_name := (alookup kwargs "last_name").getD "",
          phone := alookup kwargs "phone",
          city := alookup kwargs "city",
          state := alookup kwargs "state",
          country := alookup kwargs "country",
          enabled := false,
          password := none }
  else .error .typeError

/-- `register_user` (`api/users.py`): `User.get` on the requested
username; success means the name is taken (401); on
`NappsEntryDoesNotExists` the route calls
`User(username=..., password=..., email=..., first_name=..., last_name=...)`,
saves the user, creates a token and sends it. -/
def register_user (db : DB) (now : Nat) (c : RegisterContent)
    (freshHash : String) : RegisterRes × DB :=
  match UserRec.get db c.username with
  | .ok _ => (.duplicateUsername, db)
  | .error _ =>
      match pyCallUserInit
          [("username", c.username), ("password", c.password),
           ("email", c.email), ("first_name", c.first_name),
           ("last_name", c.last_name)] with
      | .error e => (.pyError e, db)
      | .ok user =>
          match UserRec.save db user with
          | .error e => (.pyError e, db)
          | .ok db1 =>
              let db2 := (UserRec.create_token db1 now user freshHash).1
              (.created, db2)

end UsersApi

namespace Models

/-- Replace a user's token list (`user:<name>:tokens`) wholesale; used to
state that the current-token lookup never consults entries past the
head. -/
def DB.setTokenList (db : DB) (username : String) (l : List String) : DB :=
  { db with tokenLists := assocSet db.tokenLists (userTokensKey username) l }

end Models

/-! ## Serialization layer (`Token.from_dict`/`save`, `User.from_dict`/`as_dict`)

The store stringifies every value with `str()`.  For `bool` and
list-of-string values the reconstruction (`eval`) is an exact inverse in
Python, so those conversions are modelled as explicit two-valued/structured
codecs below; the `datetime` stringification, whose reconstruction
(`strptime` with the fixed format `'%Y-%m-%d %H:%M:%S.%f'`) is *not* an
exact inverse, is modelled character by character. -/

namespace Ser

open Models

/-- The character of a decimal digit. -/
def digitChar (d : Nat) : Char := Char.ofNat (48 + d)

/-- Zero-padded fixed-width decimal rendering (`%02d`/`%04d`/`%06d`),
leading digit first; agrees with Python for `n < 10 ^ w`. -/
def padDigits : Nat → Nat → List Char
  | 0, _ => []
  | w + 1, n => digitChar (n / 10 ^ w) :: padDigits w (n % 10 ^ w)

/-- `strptime` fixed-width numeric field: consume exactly `w` digit
characters, accumulating their value. -/
def parseFixedAux : Nat → Nat → List Char → Option (Nat × List Char)
  | 0, acc, cs => some (acc, cs)
  | _ + 1, _, [] => none
  | w + 1, acc, c :: cs =>
      if c.isDigit then parseFixedAux w (acc * 10 + (c.toNat - 48)) cs else none

def parseFixed (w : Nat) (cs : List Char) : Option (Nat × List Char) :=
  parseFixedAux w 0 cs

/-- Accumulate one decimal digit character. -/
def digitStep (acc : Nat) (c : Char) : Nat := acc * 10 + (c.toNat - 48)

/-- Decimal value of a digit string. -/
def digitsVal (cs : List Char) : Nat := cs.foldl digitStep 0

/-- `strptime` literal character in the format string. -/
def expectC (c : Char) : List Char → Option (List Char)
  | [] => none
  | x :: xs => if x = c then some xs else none

/-- A `datetime.datetime` value, field by field. -/
structure PyDateTime where
  year : Nat
  month : Nat
  day : Nat
  hour : Nat
  minute : Nat
  second : Nat
  usec : Nat
  deriving DecidableEq, Repr

def isLeap (y : Nat) : Bool := (y % 4 = 0 && y % 100 ≠ 0) || y % 400 = 0

def daysInMonth (y m : Nat) : Nat :=
  if m = 2 then (if isLeap y then 29 else 28)
  else if m = 4 ∨ m = 6 ∨ m = 9 ∨ m = 11 then 30
  else 31

/-- The field ranges `datetime` enforces. -/
def PyDateTime.valid (dt : PyDateTime) : Bool :=
  1 ≤ dt.year && dt.year ≤ 9999 && 1 ≤ dt.month && dt.month ≤ 12 &&
  1 ≤ dt.day && dt.day ≤ daysInMonth dt.year dt.month &&
  dt.hour ≤ 23 && dt.minute ≤ 59 && dt.second ≤ 59 && dt.usec ≤ 999999

/-- `str(datetime)` (`isoformat(sep=' ')`): `YYYY-MM-DD HH:MM:SS`,
followed by `.ffffff` **only when the microsecond field is nonzero**. -/
def PyDateTime.pystr (dt : PyDateTime) : List Char :=
  padDigits 4 dt.year ++ '-' :: (padDigits 2 dt.month ++ '-' ::
    (padDigits 2 dt.day ++ ' ' :: (padDigits 2 dt.hour ++ ':' ::
    (padDigits 2 dt.minute ++ ':' :: (padDigits 2 dt.second ++
    (if dt.usec = 0 then [] else '.' :: padDigits 6 dt.usec))))))

/-- `strptime`'s `%f`: one to six digit characters, right-padded to
microseconds. -/
def parseMicro (cs : List Char) : Option (Nat × List Char) :=
  let ds := (cs.takeWhile Char.isDigit).take 6
  if ds.isEmpty then none
  else some (digitsVal ds * 10 ^ (6 - ds.length), cs.drop ds.length)

/-- `datetime.strptime(s, '%Y-%m-%d %H:%M:%S.%f')`: the numeric fields,
the literal separators — including the **mandatory** `'.'` before `%f` —
and the range checks; any leftover input or failed match raises
`ValueError` (modelled as `none`).  The numeric fields are consumed at
their zero-padded widths, which agrees with `strptime` on every string
`str(datetime)` produces. -/
def strptime_dt (cs : List Char) : Option PyDateTime := do
  let (y, r) ← parseFixed 4 cs
  let r ← expectC '-' r
  let (mo, r) ← parseFixed 2 r
  let r ← expectC '-' r
  let (d, r) ← parseFixed 2 r
  let r ← expectC ' ' r
  let (h, r) ← parseFixed 2 r
  let r ← expectC ':' r
  let (mi, r) ← parseFixed 2 r
  let r ← expectC ':' r
  let (s, r) ← parseFixed 2 r
  let r ← expectC '.' r
  let (us, r) ← parseMicro r
  if r.isEmpty then
    let dt : PyDateTime :=
      { year := y, month := mo, day := d, hour := h, minute := mi,
        second := s, usec := us }
    if dt.valid then some dt else none
  else none

/-- `str(int)`: plain decimal rendering. -/
def natStr (n : Nat) : List Char :=
  if n = 0 then [digitChar 0] else (Nat.digits 10 n).reverse.map digitChar

/-- `int(s)` on a stored field. -/
def pyIntOfStr (cs : List Char) : Except PyErr Nat :=
  if cs ≠ [] ∧ cs.all Char.isDigit then .ok (digitsVal cs) else .error .valueError

/-- `str()` of a value that may be Python `None` (the legacy redis client
coerces every value with `str` on write, so a `None` field is stored as
the string `"None"`). -/
def optStr : Option String → String
  | some s => s
  | none => "None"

/-- `str(bool)`. -/
def boolStr : Bool → String
  | true => "True"
  | false => "False"

/-- `eval` of a stored boolean: exact inverse of `str(bool)`; anything
else is an uncaught error. -/
def pyEvalBool (s : String) : Except PyErr Bool :=
  if s = "True" then .ok true
  else if s = "False" then .ok false
  else .error .valueError

/-- `attributes[k]`: `KeyError` when absent. -/
def getItem (d : List (String × String)) (k : String) : Except PyErr String :=
  match alookup d k with
  | some v => .ok v
  | none => .error .keyError

/-- A `Token` whose `created_at` is kept in calendar form, as the textual
store round trip sees it. -/
structure TokenS where
  hash : String
  created_at : PyDateTime
  user : String
  expiration_time : Nat
  deriving DecidableEq, Repr

/-- `Token.as_dict` under the store's stringification: `user` is written
back as the owner's username, `created_at` as `str(datetime)`,
`expiration_time` as `str(int)`. -/
def TokenS.as_dict_stored (t : TokenS) : List (String × String) :=
  [("hash", t.hash),
   ("created_at", String.mk t.created_at.pystr),
   ("user", t.user),
   ("expiration_time", String.mk (natStr t.expiration_time))]

/-- `Token.from_dict` on stored attributes:
`Token(attributes['hash'],
       datetime.strptime(attributes['created_at'], '%Y-%m-%d %H:%M:%S.%f'),
       User.get(attributes['user']),
       int(attributes['expiration_time']))`;
arguments evaluate left to right, so a `strptime` `ValueError` fires
before the owner lookup (which raises `NappsEntryDoesNotExists` when the
owner is gone). -/
def TokenS.from_dict (userExists : String → Bool) (d : List (String × String)) :
    Except PyErr TokenS := do
  let h ← getItem d "hash"
  let ca ← getItem d "created_at"
  let dt ← match strptime_dt ca.data with
           | some dt => Except.ok dt
           | none => Except.error PyErr.valueError
  let u ← getItem d "user"
  let u ← if userExists u then Except.ok u
          else Except.error PyErr.nappsEntryDoesNotExists
  let e ← getItem d "expiration_time"
  let e ← pyIntOfStr e.data
  Except.ok { hash := h, created_at := dt, user := u, expiration_time := e }

/-- `Token.save` writes `as_dict` under `token:<hash>`; a later
`Token.get`/`User.token` reads exactly that hash back through
`Token.from_dict`. -/
def TokenS.get_after_save (userExists : String → Bool) (t : TokenS) :
    Except PyErr TokenS :=
  TokenS.from_dict userExists t.as_dict_stored

/-- `User.as_dict(hide_sensible=False, detailed=True)` under the store's
stringification — the form `User.save` persists (`detailed` adds the
`napps`/`comments`/`tokens` pointer fields). -/
def UserS_as_dict_stored (u : UserRec) : List (String × String) :=
  [("username", u.username), ("email", u.email),
   ("first_name", u.first_name), ("last_name", u.last_name),
   ("phone", optStr u.phone), ("city", optStr u.city),
   ("state", optStr u.state), ("country", optStr u.country),
   ("enabled", boolStr u.enabled),
   ("password", optStr u.password),
   ("napps", userKey u.username ++ ":napps"),
   ("comments", userKey u.username ++ ":comments"),
   ("tokens", userKey u.username ++ ":tokens")]

/-- `User.from_dict` on stored attributes: the eight named fields plus
`eval(attributes['enabled'])`; `password` is *not* assigned here. -/
def UserS_from_dict (d : List (String × String)) : Except PyErr UserRec := do
  let username ← getItem d "username"
  let email ← getItem d "email"
  let fn ← getItem d "first_name"
  let ln ← getItem d "last_name"
  let phone ← getItem d "phone"
  let city ← getItem d "city"
  let st ← getItem d "state"
  let country ← getItem d "country"
  let en ← getItem d "enabled"
  let enabled ← pyEvalBool en
  Except.ok { username := username, email := email, first_name := fn,
              last_name := ln, phone := some phone, city := some city,
              state := some st, country := some country,
              enabled := enabled, password := none }

/-- `User.get` after `User.save`: `from_dict` on the stored hash, then
`user.password = attributes['password']`. -/
def UserS_get_after_save (u : UserRec) : Except PyErr UserRec := do
  let base ← UserS_from_dict (UserS_as_dict_stored u)
  let pw ← getItem (UserS_as_dict_stored u) "password"
  Except.ok { base with password := some pw }

end Ser

/-! ## Package registry (`core/models.py`: `Napp`)

Napp attribute dictionaries are modelled as string-keyed association
lists of `AttrVal` values.  The store stringifies every value with
`str()` on write (legacy redis client) and `_populate_from_dict`
reconstructs array fields with `eval()`; for list-of-string values
`repr`/`eval` are exact mutual inverses in Python (`eval(repr(x)) == x`),
so the stored dict keeps its structured list values and the
`eval`-a-string branch of the population loop is out of the model (no
modelled code path reaches it).  Plain strings come back verbatim.  A
Python `None` value, however, is written as `str(None) = "None"` and
comes back as that *string* — `storeCoerce` makes this write coercion
explicit, exactly as `Ser.optStr` does for the `User` fields. -/

namespace NappM

/-- A value of a napp attribute dictionary: a string, a list of strings,
or Python `None` (the value `attributes.get` yields for an absent
optional key, and the value such an attribute contributes to
`as_dict`). -/
inductive AttrVal where
  | str (s : String)
  | list (l : List String)
  | pynone
  deriving DecidableEq, Repr

/-- The `Napp` entity.  `long_description` is optional in the schema and
is serialized *raw* by `as_dict`, so its Python `None` state is modelled
faithfully as `none`.  `readme` (the only other optional string field)
is modelled as `String` with `""` for `None`: the two are observationally
equal for every operation on this field — the code only ever tests its
truthiness (`None` and `""` are both falsy), and `as_dict` never
serializes it raw, always overwriting the entry with the rendered string
`readme_html`.  `user` holds the owning user's username (`None` when the
napp was reconstructed without a user, as in `Napp.all`). -/
structure NappRec where
  name : String := ""
  description : String := ""
  long_description : Option String := none
  version : String := ""
  author : String := ""
  license : String := ""
  git : String := ""
  branch : String := ""
  readme : String := ""
  ofversion : List String := []
  tags : List String := []
  dependencies : List String := []
  user : Option String := none
  deriving DecidableEq, Repr

/-- The schema keys in the dict-literal order of `Napp.schema` (without
the `required` meta-key), tagged with whether the field is array-typed. -/
def schemaKeys : List (String × Bool) :=
  [("name", false), ("description", false), ("long_description", false),
   ("version", false), ("author", false), ("license", false), ("git", false),
   ("branch", false), ("readme", false), ("ofversion", true), ("tags", true),
   ("dependencies", true), ("user", false)]

/-- `Napp.schema['required']`. -/
def requiredKeys : List String :=
  ["name", "description", "version", "author", "license", "git", "branch",
   "ofversion", "tags", "dependencies"]

/-- The value `setattr` receives for an *optional* string field
(`attributes.get(key)`): the string itself, or Python `None` for an
absent key or a stored `None`.  (A list value here would be stored as-is
by the untyped `setattr`; no modelled code path produces one for a
string-typed key.) -/
def asOptStr : Option AttrVal → Option String
  | some (.str s) => some s
  | _ => none

/-- The value `setattr` receives for a *required* string field: the
required-key check has already passed, and every modelled producer (the
validated upload JSON and the store image) supplies strings here. -/
def asStr : Option AttrVal → String
  | some (.str s) => s
  | _ => ""

/-- `setattr(self, key, value)` for a string-typed schema field.  For the
`readme` field, which the code only ever truthiness-tests and never
serializes raw, Python `None` is represented by `""` (see `NappRec`). -/
def setStrField (n : NappRec) (key : String) (v : Option AttrVal) : NappRec :=
  if key = "name" then { n with name := asStr v }
  else if key = "description" then { n with description := asStr v }
  else if key = "long_description" then { n with long_description := asOptStr v }
  else if key = "version" then { n with version := asStr v }
  else if key = "author" then { n with author := asStr v }
  else if key = "license" then { n with license := asStr v }
  else if key = "git" then { n with git := asStr v }
  else if key = "branch" then { n with branch := asStr v }
  else if key = "readme" then { n with readme := asStr v }
  else n

/-- `setattr(self, key, value)` for an array-typed schema field. -/
def setListField (n : NappRec) (key : String) (l : List String) : NappRec :=
  if key = "ofversion" then { n with ofversion := l }
  else if key = "tags" then { n with tags := l }
  else if key = "dependencies" then { n with dependencies := l }
  else n

/-- One iteration of the `_populate_from_dict` loop for the schema key
`key` (the loop skips `required` and `user`): a required-but-missing key
raises `InvalidNappMetaData`; an array-typed value that is not a list
would go through `eval` (out of the model: every modelled path supplies
lists, see the header of this namespace — and a *missing* array key
cannot reach the `eval(attributes.get(key, []))` call because every
array key is required). -/
def populateStep (attrs : List (String × AttrVal)) (n : NappRec)
    (kb : String × Bool) : Except PyErr NappRec :=
  let (key, isArr) := kb
  if key = "user" then .ok n
  else if requiredKeys.contains key ∧ (alookup attrs key).isNone then
    .error .invalidNappMetaData
  else if isArr then
    match alookup attrs key with
    | some (.list l) => .ok (setListField n key l)
    | some (.str _) => .error .valueError
    | some .pynone => .error .typeError   -- eval(None): TypeError
    | none => .error .typeError           -- eval([]): TypeError
  else .ok (setStrField n key (alookup attrs key))

/-- The field-population loop of `_populate_from_dict`. -/
def populateFields (attrs : List (String × AttrVal)) (n0 : NappRec) :
    Except PyErr NappRec :=
  schemaKeys.foldlM (populateStep attrs) n0

/-- `Napp.update_readme_from_git`: fetch `README.rst` from the raw-file
URL and store its text; any failure raises `RepositoryNotReachable`.  The
network fetch (an external collaborator) is the explicit `remoteReadme`
parameter, `none` meaning the fetch failed. -/
def update_readme_from_git (remoteReadme : Option String) (n : NappRec) :
    Except PyErr NappRec :=
  match remoteReadme with
  | some r => .ok { n with readme := r }
  | none => .error .repositoryNotReachable

/-- `Napp._populate_from_dict`: populate every schema field, then, when
the readme is falsy, opportunistically backfill it from the remote,
swallowing any failure (`try: ... except: pass`). -/
def populate_from_dict (remoteReadme : Option String)
    (attrs : List (String × AttrVal)) (n0 : NappRec) :
    Except PyErr NappRec := do
  let n ← populateFields attrs n0
  if n.readme = "" then
    match update_readme_from_git remoteReadme n with
    | .ok n' => pure n'
    | .error _ => pure n
  else pure n

/-- `Napp.__init__(content, user)`: set `self.user` (a `User` object or
`None`; modelled by the username) and populate from `content`. -/
def napp_init (remoteReadme : Option String) (attrs : List (String × AttrVal))
    (user : Option String) : Except PyErr NappRec :=
  populate_from_dict remoteReadme attrs { user := user }

/-- `Napp.readme_rst`: the stored readme when truthy, else
`long_description` — returned as the *value* the attribute holds, which
may be Python `None`. -/
def NappRec.readme_rst (n : NappRec) : Option String :=
  if n.readme = "" then n.long_description else some n.readme

/-- The dict value an optional string attribute contributes to
`as_dict`: the string, or the Python `None` the attribute holds. -/
def optAttr : Option String → AttrVal
  | some s => .str s
  | none => .pynone

/-- `Napp.as_dict`: one entry per schema key (`required` excluded,
`user`'s loop value irrelevant), then the two overwrites
`data['user'] = self.author` and `data['readme'] = self.readme_html`.
The rich-text rendering collaborator (`docutils`, applied to the
`readme_rst` value) is the explicit `render` parameter; its output is
always a string. -/
def NappRec.as_dict (render : Option String → String) (n : NappRec) :
    List (String × AttrVal) :=
  assocSet (assocSet
    [("name", .str n.name), ("description", .str n.description),
     ("long_description", optAttr n.long_description),
     ("version", .str n.version), ("author", .str n.author),
     ("license", .str n.license), ("git", .str n.git),
     ("branch", .str n.branch), ("readme", .str n.readme),
     ("ofversion", .list n.ofversion), ("tags", .list n.tags),
     ("dependencies", .list n.dependencies), ("user", .str "")]
    "user" (.str n.author))
    "readme" (.str (render n.readme_rst))

/-- The store round trip of one dict value: `str()` coercion on write
(the legacy redis client) composed with the read-back.  Strings come
back verbatim; list values come back through `eval`, an exact inverse of
`repr` (see the namespace header); Python `None` is written as
`str(None) = "None"` and comes back as that string. -/
def storeCoerce : AttrVal → AttrVal
  | .str s => .str s
  | .list l => .list l
  | .pynone => .str "None"

/-- The hash `hmset` actually stores and `hgetall` reads back: every
value of the serialized dict passes through `storeCoerce`. -/
def storedDict (d : List (String × AttrVal)) : List (String × AttrVal) :=
  d.map (fun kv => (kv.1, storeCoerce kv.2))

/-- The napp part of the store: the `napps` membership set, the per-user
`user:<author>:napps` sets, and the persisted hashes. -/
structure NappDB where
  nappsSet : List String := []
  userNappsSets : List (String × List String) := []
  napps : List (String × List (String × AttrVal)) := []
  deriving DecidableEq, Repr

def nappKey (author name : String) : String :=
  "napp:" ++ author ++ "/" ++ name

def NappRec.redis_key (n : NappRec) : String := nappKey n.author n.name

def userNappsKey (author : String) : String :=
  "user:" ++ author ++ ":napps"

/-- `Napp.save`: `sadd("napps", key)`, `sadd("user:<author>:napps", key)`,
`hmset(key, self.as_dict())` — the stored hash is the write-coerced
image of `as_dict`. -/
def NappRec.save (render : Option String → String) (db : NappDB)
    (n : NappRec) : NappDB :=
  { db with
    nappsSet := saddL db.nappsSet n.redis_key,
    userNappsSets := assocSet db.userNappsSets (userNappsKey n.author)
      (saddL ((alookup db.userNappsSets (userNappsKey n.author)).getD [])
        n.redis_key),
    napps := assocSet db.napps n.redis_key (storedDict (n.as_dict render)) }

/-- `Napp.new_napp_from_dict(attributes, user)`: construct (populating
the fields), require `napp.user.username == napp.author` — raising
`InvalidAuthor` with nothing persisted otherwise — then save. -/
def new_napp_from_dict (render : Option String → String)
    (remoteReadme : Option String) (db : NappDB)
    (attrs : List (String × AttrVal)) (username : String) :
    Except PyErr (NappRec × NappDB) := do
  let napp ← napp_init remoteReadme attrs (some username)
  if username ≠ napp.author then .error .invalidAuthor
  else .ok (napp, napp.save render db)

/-- Python attribute access on a plain `dict` object: a `dict` carries no
data attributes, so `attributes.author` raises `AttributeError` for
*every* dict (the item access presumably intended would be
`attributes['author']`). -/
def pyDictGetAttr (_d : List (String × AttrVal)) (_a : String) :
    Except PyErr AttrVal :=
  .error .attributeError

/-- `Napp.update_from_dict(attributes)`: evaluate
`self.user.username != attributes.author` left to right —
`self.user.username` first (`AttributeError` when `self.user` is `None`),
then `attributes.author`, the attribute access above; the ownership
check, the repopulation and the save below it are unreachable for dict
arguments. -/
def update_from_dict (render : Option String → String)
    (remoteReadme : Option String) (db : NappDB) (napp : NappRec)
    (attrs : List (String × AttrVal)) : Except PyErr (NappRec × NappDB) := do
  let owner ← match napp.user with
              | some u => Except.ok u
              | none => Except.error PyErr.attributeError
  let a ← pyDictGetAttr attrs "author"
  match a with
  | .str author =>
      if owner ≠ author then .error .invalidAuthor
      else do
        let n' ← populate_from_dict remoteReadme attrs napp
        .ok (n', n'.save render db)
  | _ => .error .typeError

/-- `Napp._json_from_git`: build the raw-file URL, fetch `kytos.json` and
parse it; *any* failure of the fetch or the parse raises
`RepositoryNotReachable`.  The fetched-and-parsed result is the explicit
`remoteKytos` parameter, `none` meaning some step failed. -/
def json_from_git (remoteKytos : Option (List (String × AttrVal))) :
    Except PyErr (List (String × AttrVal)) :=
  match remoteKytos with
  | some a => .ok a
  | none => .error .repositoryNotReachable

/-- `Napp.update_from_git`: `self.update_from_dict(self._json_from_git)` —
the argument is evaluated first, so a remote failure propagates before
`update_from_dict` runs. -/
def update_from_git (render : Option String → String)
    (remoteKytos : Option (List (String × AttrVal)))
    (remoteReadme : Option String) (db : NappDB) (napp : NappRec) :
    Except PyErr (NappRec × NappDB) := do
  let attrs ← json_from_git remoteKytos
  update_from_dict render remoteReadme db napp attrs

/-- Reconstructing a napp from its stored hash (`Napp(attributes)` with
no user argument, as in `Napp.all` and `User.get_napp_by_name`). -/
def napp_from_store (remoteReadme : Option String)
    (stored : List (String × AttrVal)) : Except PyErr NappRec :=
  napp_init remoteReadme stored none

end NappM

/-! ## Artifact store helpers (`napps_server/api/napps.py`) -/

namespace NappsApi

/-- Python values flowing through `_napp_versioned_name`: its `counter`
variable holds the `int` 0 or a regex-match *string*. -/
inductive PyVal where
  | str (s : String)
  | int (n : Nat)
  deriving DecidableEq, Repr

/-- Python 3 `>` on these values: comparing `str` with `int` raises
`TypeError`. -/
def pyGt : PyVal → PyVal → Except PyErr Bool
  | .int a, .int b => .ok (decide (b < a))
  | .str a, .str b => .ok (decide (b < a))
  | _, _ => .error .typeError

/-- Python `+` on these values: concatenating `str` with `int` raises
`TypeError`. -/
def pyAdd : PyVal → PyVal → Except PyErr PyVal
  | .str a, .str b => .ok (.str (a ++ b))
  | .int a, .int b => .ok (.int (a + b))
  | _, _ => .error .typeError

/-- Whether a character list matches the pattern tail `.napp`: one
arbitrary character (the unescaped `.`), then the literal `napp`,
then anything (`re.match` does not anchor the end). -/
def tailMatches : List Char → Bool
  | _ :: rest => "napp".data.isPrefixOf rest
  | [] => false

def digitPrefixLen (cs : List Char) : Nat :=
  (cs.takeWhile Char.isDigit).length

/-- Greedy backtracking for `(\d+).napp` on the remainder after the
basename: the longest digit run (at least one digit) whose suffix still
matches `.napp`, returned as `group(1)`. -/
def matchCounterFrom (cs : List Char) : Option String :=
  (List.range (digitPrefixLen cs)).reverse.findSome? (fun k =>
    if tailMatches (cs.drop (k + 1)) then some (String.mk (cs.take (k + 1)))
    else none)

/-- `re.compile(basename + '(\d+)' + '.napp').match(file)`, as
`group(1)`: anchored at the start, the basename matched literally, then
the greedy digit group and the `.napp` tail. -/
def versionedMatch (basename file : String) : Option String :=
  if basename.data.isPrefixOf file.data then
    matchCounterFrom (file.data.drop basename.data.length)
  else none

/-- The loop of `_napp_versioned_name`: for each listed file, when the
regex matches, evaluate `matched.group(1) > counter` — a `str`-vs-`int`
comparison on the first match, since `counter` starts as the int 0 — and
set `counter = matched.group(1)` (the match *string*) when greater. -/
def versionLoop (matchFn : String → Option String) :
    List String → PyVal → Except PyErr PyVal
  | [], c => .ok c
  | f :: fs, c =>
      match matchFn f with
      | none => versionLoop matchFn fs c
      | some g => do
          let gt ← pyGt (.str g) c
          versionLoop matchFn fs (if gt then .str g else c)

/-- `_napp_versioned_name(author, napp_name)`:
`basename = napp_name + strftime('%Y%m%d') + '-'` (the date string and
the directory listing are the external inputs), `counter = 0`, the loop
above over `os.listdir(author_repo)`, and finally
`return basename + counter + '.napp'`. -/
def napp_versioned_name (matchFn : String → Option String) (basename : String)
    (files : List String) : Except PyErr PyVal := do
  let c ← versionLoop matchFn files (.int 0)
  let r ← pyAdd (.str basename) c
  pyAdd r (.str ".napp")

/-- `ALLOWED_EXTENSIONS = set(['.napp'])`. -/
def ALLOWED_EXTENSIONS : List String := [".napp"]

/-- The characters after the last `'.'`
(`filename.rsplit('.', 1)[1]` when a dot is present). -/
def afterLastDot (cs : List Char) : List Char :=
  (cs.reverse.takeWhile (fun c => c ≠ '.')).reverse

/-- `_allowed_file(filename)`:
`'.' in filename and filename.rsplit('.', 1)[1] in ALLOWED_EXTENSIONS`
(short-circuit: the split is only evaluated when a dot is present). -/
def allowed_file (filename : String) : Bool :=
  filename.data.contains '.' &&
    decide (String.mk (afterLastDot filename.data) ∈ ALLOWED_EXTENSIONS)

end NappsApi

/-! ## Sample data for witnesses and counterexamples -/

namespace Sample

open Models UsersApi

def alice : UserRec :=
  { username := "alice", email := "a@x.io", first_name := "Alice",
    last_name := "A", password := some "pw-hash", enabled := false }

def bob : UserRec :=
  { username := "bob", email := "b@x.io", first_name := "Bob",
    last_name := "B", password := some "pw-hash2", enabled := true }

/-- A token for alice, created at time 10, expiring at time 110. -/
def tk : TokenRec :=
  { hash := "h1", created_at := 10, user := "alice", expiration_time := 100 }

/-- Store holding alice and her token list `[token:h1]`. -/
def db0 : DB :=
  { usersSet := ["user:alice"],
    users := [("user:alice", alice)],
    tokensSet := ["token:h1"],
    tokens := [("token:h1", tk)],
    tokenLists := [("user:alice:tokens", ["token:h1"])] }

/-- Same store with an empty token list for alice. -/
def db0noTokens : DB :=
  { usersSet := ["user:alice"],
    users := [("user:alice", alice)],
    tokensSet := [],
    tokens := [],
    tokenLists := [("user:alice:tokens", [])] }

/-- A user with every optional field present. -/
def bob2 : UserRec :=
  { username := "bob", email := "b@x.io", first_name := "Bob",
    last_name := "B", phone := some "5551234", city := some "Porto Alegre",
    state := some "RS", country := some "BR", enabled := true,
    password := some "pw-hash2" }

/-- A token whose `created_at` has nonzero microseconds. -/
def tkS : Ser.TokenS :=
  { hash := "h1",
    created_at :=
      { year := 2016, month := 11, day := 9, hour := 3, minute := 14,
        second := 15, usec := 926535 },
    user := "alice", expiration_time := 86400 }

/-- A well-formed napp attribute dictionary as uploaded by alice. -/
def nappAttrs : List (String × NappM.AttrVal) :=
  [("name", .str "foo"), ("description", .str "desc"),
   ("long_description", .str "docs"), ("version", .str "1.0"),
   ("author", .str "alice"), ("license", .str "MIT"),
   ("git", .str "https://github.com/alice/foo.git"),
   ("branch", .str "master"), ("readme", .str "hello"),
   ("ofversion", .list ["1.0"]), ("tags", .list ["sdn"]),
   ("dependencies", .list [])]

/-- The same dictionary without a readme (the key is optional). -/
def nappAttrsNoReadme : List (String × NappM.AttrVal) :=
  [("name", .str "foo"), ("description", .str "desc"),
   ("long_description", .str "docs"), ("version", .str "1.0"),
   ("author", .str "alice"), ("license", .str "MIT"),
   ("git", .str "https://github.com/alice/foo.git"),
   ("branch", .str "master"),
   ("ofversion", .list ["1.0"]), ("tags", .list ["sdn"]),
   ("dependencies", .list [])]

/-- The napp `nappAttrs` populates, owned by alice. -/
def napp0 : NappM.NappRec :=
  { name := "foo", description := "desc", long_description := some "docs",
    version := "1.0", author := "alice", license := "MIT",
    git := "https://github.com/alice/foo.git", branch := "master",
    readme := "hello", ofversion := ["1.0"], tags := ["sdn"],
    dependencies := [], user := some "alice" }

/-- The same napp with an empty readme and no owning user. -/
def nappEmptyReadme : NappM.NappRec :=
  { napp0 with readme := "", user := none }

/-- The same napp with an absent (`None`) long description. -/
def nappNoLongDesc : NappM.NappRec :=
  { napp0 with long_description := none, user := none }

/-- The most charitable renderer: the identity on strings, `""` for a
`None` source. -/
def renderId : Option String → String := fun os => os.getD ""

end Sample

/-! ## Theorems -/

namespace Proofs

open Models UsersApi

/-! ### Helper lemmas about `User.token` -/

theorem userToken_nil (db : DB) (now : Nat) (u : String)
    (h : (alookup db.tokenLists (userTokensKey u)).getD [] = []) :
    UserRec.token db now u = .ok none := by
  unfold UserRec.token
  rw [h]
  rfl

theorem userToken_cons (db : DB) (now : Nat) (u k : String) (rest : List String)
    (t : TokenRec)
    (hl : (alookup db.tokenLists (userTokensKey u)).getD [] = k :: rest)
    (ht : alookup db.tokens k = some t)
    (hu : (alookup db.users (userKey t.user)).isSome) :
    UserRec.token db now u = .ok (if t.is_valid now then some t else none) := by
  unfold UserRec.token
  rw [hl]
  simp only [List.head?]
  rw [ht]
  obtain ⟨u', hu'⟩ := Option.isSome_iff_exists.mp hu
  simp only [TokenRec.from_dict, hu']
  by_cases hv : t.is_valid now <;>
    simp [hv, pure, Except.pure, Bind.bind, Except.bind]

theorem userToken_inv (db : DB) (now : Nat) (u : String) (t : TokenRec)
    (h : UserRec.token db now u = .ok (some t)) :
    ∃ k rest, (alookup db.tokenLists (userTokensKey u)).getD [] = k :: rest ∧
      alookup db.tokens k = some t ∧
      (alookup db.users (userKey t.user)).isSome ∧ t.is_valid now = true := by
  unfold UserRec.token at h
  cases hl : (alookup db.tokenLists (userTokensKey u)).getD [] with
  | nil =>
      rw [hl] at h
      simp at h
  | cons k rest =>
      rw [hl] at h
      simp only [List.head?] at h
      cases ht : alookup db.tokens k with
      | none => rw [ht] at h; simp at h
      | some attrs =>
          rw [ht] at h
          cases hu : alookup db.users (userKey attrs.user) with
          | none =>
              simp only [TokenRec.from_dict, hu] at h
              simp [Bind.bind, Except.bind] at h
          | some u' =>
              simp only [TokenRec.from_dict, hu] at h
              simp only [Bind.bind, Except.bind] at h
              by_cases hv : attrs.is_valid now
              · simp only [hv, if_true] at h
                have heq : attrs = t := by simpa [pure, Except.pure] using h
                refine ⟨k, rest, rfl, ?_, ?_, ?_⟩
                · rw [ht, heq]
                · rw [← heq]; simp [hu]
                · rw [← heq]; exact hv
              · simp [hv, pure, Except.pure] at h

theorem userToken_tail_irrel (db : DB) (now : Nat) (u k : String)
    (rest rest' : List String) :
    UserRec.token (db.setTokenList u (k :: rest)) now u =
    UserRec.token (db.setTokenList u (k :: rest')) now u := by
  unfold UserRec.token DB.setTokenList
  simp only [alookup_assocSet_self, Option.getD_some, List.head?]
  cases alookup db.tokens k <;> simp [TokenRec.from_dict]

theorem except_ok_bind {ε α β : Type} (a : α) (f : α → Except ε β) :
    (Except.ok a : Except ε α) >>= f = f a := rfl

theorem userGet_some (db : DB) (username : String) (u : UserRec)
    (h : alookup db.users (userKey username) = some u) :
    UserRec.get db username = .ok u := by
  simp [UserRec.get, h]

theorem userGet_none (db : DB) (username : String)
    (h : alookup db.users (userKey username) = none) :
    UserRec.get db username = .error .nappsEntryDoesNotExists := by
  simp [UserRec.get, h]

/-! ### Helper lemmas about `confirm_user` -/

theorem confirm_user_not_found (db : DB) (now : Nat) (username h : String)
    (hu : alookup db.users (userKey username) = none) :
    confirm_user db now username h = .ok (.userNotFound, db) := by
  unfold confirm_user
  rw [userGet_none db username hu]

theorem confirm_user_no_token (db : DB) (now : Nat) (username h : String)
    (u : UserRec)
    (hu : alookup db.users (userKey username) = some u)
    (ht : UserRec.token db now username = .ok none) :
    confirm_user db now username h = .ok (.invalidToken, db) := by
  unfold confirm_user
  rw [userGet_some db username u hu, ht]
  rfl

theorem confirm_user_wrong_hash (db : DB) (now : Nat) (username h : String)
    (u : UserRec) (t : TokenRec)
    (hu : alookup db.users (userKey username) = some u)
    (ht : UserRec.token db now username = .ok (some t))
    (hh : t.hash ≠ h) :
    confirm_user db now username h = .ok (.invalidToken, db) := by
  unfold confirm_user
  rw [userGet_some db username u hu, ht]
  simp only [except_ok_bind]
  simp [hh]
  rfl

theorem confirm_user_success (db : DB) (now : Nat) (username h : String)
    (u : UserRec) (t : TokenRec) (pw : String)
    (hu : alookup db.users (userKey username) = some u)
    (htok : UserRec.token db now username = .ok (some t))
    (hh : t.hash = h)
    (hpw : u.password = some pw) (hpwne : pw ≠ "") :
    ∃ db', confirm_user db now username h = .ok (.confirmed, db') ∧
      alookup db'.users (userKey u.username) = some { u with enabled := true } ∧
      alookup db'.tokens t.redis_key = some { t with expiration_time := 0 } := by
  obtain ⟨k, rest, hl, htk, huser, hv⟩ := userToken_inv db now username t htok
  have henable : UserRec.enable db u = .ok
      { db with usersSet := saddL db.usersSet (userKey u.username),
                users := assocSet db.users (userKey u.username)
                  { u with enabled := true } } := by
    simp [UserRec.enable, UserRec.save, hpw, hpwne, UserRec.redis_key]
  set u' : UserRec := { u with enabled := true } with hu'
  set db1 : DB :=
    { db with usersSet := saddL db.usersSet (userKey u.username),
              users := assocSet db.users (userKey u.username) u' } with hdb1
  have htok1 : UserRec.token db1 now username = .ok (some t) := by
    have := userToken_cons db1 now username k rest t
      (by simpa [hdb1] using hl) (by simpa [hdb1] using htk)
      (by simp only [hdb1]
          exact alookup_assocSet_isSome db.users (userKey u.username)
            (userKey t.user) u' huser)
    rw [this]
    simp [hv]
  refine ⟨(TokenRec.invalidate db1 t).1, ?_, ?_, ?_⟩
  · have hcond : ¬(t.hash ≠ h ∨ t.is_valid now = false) := by
      push_neg
      exact ⟨hh, by simp [hv]⟩
    unfold confirm_user
    rw [userGet_some db username u hu, htok]
    simp only [except_ok_bind]
    rw [if_neg hcond, henable]
    simp only [except_ok_bind]
    rw [htok1]
    simp only [except_ok_bind]
    rfl
  · show alookup (TokenRec.invalidate db1 t).1.users _ = _
    simp only [TokenRec.invalidate, TokenRec.save, hdb1]
    exact alookup_assocSet_self db.users (userKey u.username) u'
  · show alookup (TokenRec.invalidate db1 t).1.tokens _ = _
    simp only [TokenRec.invalidate, TokenRec.save]
    exact alookup_assocSet_self db1.tokens t.redis_key _

/-! ### C1 — confirmation succeeds iff the current valid token's hash matches -/

/-- **C1.**  `confirm_user` fails with the not-found error when the user
does not exist; fails with the invalid-token error when the user has no
current valid token (empty list, or an invalid/expired head token — in
particular even when the presented hash matches the expired head token's
hash) or when the presented hash differs from the current valid token's
hash; and succeeds exactly in the remaining case, enabling the user and
invalidating the current token. -/
theorem C1_confirm_user :
    (∀ (db : DB) (now : Nat) (username h : String),
        alookup db.users (userKey username) = none →
        confirm_user db now username h = .ok (.userNotFound, db)) ∧
    (∀ (db : DB) (now : Nat) (username h : String) (u : UserRec),
        alookup db.users (userKey username) = some u →
        UserRec.token db now username = .ok none →
        confirm_user db now username h = .ok (.invalidToken, db)) ∧
    (∀ (db : DB) (now : Nat) (username h : String) (u : UserRec) (k : String)
        (rest : List String) (t : TokenRec),
        alookup db.users (userKey username) = some u →
        (alookup db.tokenLists (userTokensKey username)).getD [] = k :: rest →
        alookup db.tokens k = some t →
        (alookup db.users (userKey t.user)).isSome →
        t.is_valid now = false →
        confirm_user db now username h = .ok (.invalidToken, db)) ∧
    (∀ (db : DB) (now : Nat) (username h : String) (u : UserRec) (t : TokenRec),
        alookup db.users (userKey username) = some u →
        UserRec.token db now username = .ok (some t) →
        t.hash ≠ h →
        confirm_user db now username h = .ok (.invalidToken, db)) ∧
    (∀ (db : DB) (now : Nat) (username h : String) (u : UserRec) (t : TokenRec)
        (pw : String),
        alookup db.users (userKey username) = some u →
        UserRec.token db now username = .ok (some t) →
        t.hash = h →
        u.password = some pw → pw ≠ "" →
        ∃ db', confirm_user db now username h = .ok (.confirmed, db') ∧
          alookup db'.users (userKey u.username) =
            some { u with enabled := true } ∧
          alookup db'.tokens t.redis_key =
            some { t with expiration_time := 0 }) := by
  refine ⟨confirm_user_not_found, confirm_user_no_token, ?_,
    confirm_user_wrong_hash, confirm_user_success⟩
  intro db now username h u k rest t hu hl htk huser hv
  have := userToken_cons db now username k rest t hl htk huser
  rw [hv] at this
  exact confirm_user_no_token db now username h u hu (by simpa using this)

/-- Witness for C1 on the sample store: a successful confirmation with
the matching hash at time 20, a rejected confirmation at time 200 when
the same token (same matching hash) has expired, and the not-found case
for an unknown user. -/
theorem C1_witness :
    (∃ db', confirm_user Sample.db0 20 "alice" "h1" = .ok (.confirmed, db') ∧
        alookup db'.users (userKey "alice") =
          some { Sample.alice with enabled := true } ∧
        alookup db'.tokens "token:h1" =
          some { Sample.tk with expiration_time := 0 }) ∧
    confirm_user Sample.db0 200 "alice" "h1" = .ok (.invalidToken, Sample.db0) ∧
    confirm_user Sample.db0 20 "carol" "h1" = .ok (.userNotFound, Sample.db0) := by
  refine ⟨?_, ?_, ?_⟩
  · have h := C1_confirm_user.2.2.2.2 Sample.db0 20 "alice" "h1" Sample.alice
      Sample.tk "pw-hash" (by decide)
      rfl rfl rfl (by decide)
    simpa [Sample.alice, Sample.tk] using h
  · exact C1_confirm_user.2.2.1 Sample.db0 200 "alice" "h1" Sample.alice
      "token:h1" [] Sample.tk (by decide) (by decide) (by decide)
      (by decide) (by decide)
  · exact C1_confirm_user.1 Sample.db0 20 "carol" "h1" (by decide)

/-! ### C4 — duplicate registration rejected; fresh registration path -/

/-- **C4 theorem.**  `register_user`: a request whose username is already
stored is answered with the duplicate error and leaves the store
untouched.  A request with an unused username, however, never creates a
user: the route calls `User.__init__` with a `password` keyword which the
constructor does not accept, so the construction raises `TypeError`
before anything is persisted (the store is also untouched). -/
theorem C4_register_user :
    (∀ (db : DB) (now : Nat) (c : RegisterContent) (freshHash : String)
        (u : UserRec),
        alookup db.users (userKey c.username) = some u →
        register_user db now c freshHash = (.duplicateUsername, db)) ∧
    (∀ (db : DB) (now : Nat) (c : RegisterContent) (freshHash : String),
        alookup db.users (userKey c.username) = none →
        register_user db now c freshHash = (.pyError .typeError, db)) := by
  constructor
  · intro db now c freshHash u hu
    unfold register_user
    rw [userGet_some db c.username u hu]
  · intro db now c freshHash hu
    unfold register_user
    rw [userGet_none db c.username hu]
    rfl

/-- Witness for C4: registering `alice` twice on the sample store is
rejected as a duplicate, and registering the unused name `carol` raises
`TypeError` instead of creating the user. -/
theorem C4_witness :
    register_user Sample.db0 50
        { username := "alice", password := "pw2", email := "a2@x.io",
          first_name := "Alice", last_name := "A" } "h9" =
      (.duplicateUsername, Sample.db0) ∧
    register_user Sample.db0 50
        { username := "carol", password := "pw3", email := "c@x.io",
          first_name := "Carol", last_name := "C" } "h9" =
      (.pyError .typeError, Sample.db0) := by
  constructor
  · exact C4_register_user.1 Sample.db0 50
      { username := "alice", password := "pw2", email := "a2@x.io",
        first_name := "Alice", last_name := "A" } "h9" Sample.alice (by decide)
  · exact C4_register_user.2 Sample.db0 50
      { username := "carol", password := "pw3", email := "c@x.io",
        first_name := "Carol", last_name := "C" } "h9" (by decide)

/-! ### Serialization lemmas: zero-padded decimal fields and `strptime` -/

theorem string_mk_data (cs : List Char) : (String.mk cs).data = cs := rfl

theorem opt_some_bind {α β : Type} (a : α) (f : α → Option β) :
    (some a >>= f) = f a := rfl

theorem digitChar_isDigit {d : Nat} (h : d < 10) :
    (Ser.digitChar d).isDigit = true := by
  interval_cases d <;> decide

theorem digitChar_toNat {d : Nat} (h : d < 10) :
    (Ser.digitChar d).toNat - 48 = d := by
  interval_cases d <;> decide

theorem parseFixedAux_pad (w : Nat) :
    ∀ (n acc : Nat) (rest : List Char), n < 10 ^ w →
      Ser.parseFixedAux w acc (Ser.padDigits w n ++ rest) =
        some (acc * 10 ^ w + n, rest) := by
  induction w with
  | zero =>
      intro n acc rest h
      have hn : n = 0 := by simpa [Nat.lt_one_iff] using h
      subst hn
      simp [Ser.padDigits, Ser.parseFixedAux]
  | succ w ih =>
      intro n acc rest h
      have h10 : 0 < 10 ^ w := pow_pos (by norm_num) w
      have hd : n / 10 ^ w < 10 := by
        rw [Nat.div_lt_iff_lt_mul h10]
        rw [pow_succ] at h
        omega
      have hmod : n % 10 ^ w < 10 ^ w := Nat.mod_lt _ h10
      have hih := ih (n % 10 ^ w) (acc * 10 + n / 10 ^ w) rest hmod
      have key : (acc * 10 + n / 10 ^ w) * 10 ^ w + n % 10 ^ w =
          acc * 10 ^ (w + 1) + n := by
        have hdm : 10 ^ w * (n / 10 ^ w) + n % 10 ^ w = n :=
          Nat.div_add_mod n (10 ^ w)
        calc (acc * 10 + n / 10 ^ w) * 10 ^ w + n % 10 ^ w
            = acc * (10 ^ w * 10) +
              (10 ^ w * (n / 10 ^ w) + n % 10 ^ w) := by ring
          _ = acc * 10 ^ (w + 1) + n := by rw [hdm, pow_succ]
      simp only [Ser.padDigits, List.cons_append, Ser.parseFixedAux,
        digitChar_isDigit hd, if_true, digitChar_toNat hd]
      rw [key] at hih
      simpa using hih

theorem parseFixed_pad (w n : Nat) (rest : List Char) (h : n < 10 ^ w) :
    Ser.parseFixed w (Ser.padDigits w n ++ rest) = some (n, rest) := by
  simpa [Ser.parseFixed] using parseFixedAux_pad w n 0 rest h

theorem expectC_cons (c : Char) (xs : List Char) :
    Ser.expectC c (c :: xs) = some xs := by
  simp [Ser.expectC]

theorem padDigits_length (w : Nat) : ∀ n, (Ser.padDigits w n).length = w := by
  induction w with
  | zero => intro n; rfl
  | succ w ih => intro n; simp [Ser.padDigits, ih]

theorem padDigits_isDigit (w : Nat) : ∀ n, n < 10 ^ w →
    ∀ c ∈ Ser.padDigits w n, c.isDigit = true := by
  induction w with
  | zero => intro n h c hc; simp [Ser.padDigits] at hc
  | succ w ih =>
      intro n h c hc
      have h10 : 0 < 10 ^ w := pow_pos (by norm_num) w
      have hd : n / 10 ^ w < 10 := by
        rw [Nat.div_lt_iff_lt_mul h10]
        rw [pow_succ] at h
        omega
      simp only [Ser.padDigits, List.mem_cons] at hc
      rcases hc with hc | hc
      · subst hc; exact digitChar_isDigit hd
      · exact ih (n % 10 ^ w) (Nat.mod_lt _ h10) c hc

theorem foldl_digitStep_pad (w : Nat) : ∀ n acc, n < 10 ^ w →
    (Ser.padDigits w n).foldl Ser.digitStep acc = acc * 10 ^ w + n := by
  induction w with
  | zero =>
      intro n acc h
      have hn : n = 0 := by simpa [Nat.lt_one_iff] using h
      subst hn
      simp [Ser.padDigits]
  | succ w ih =>
      intro n acc h
      have h10 : 0 < 10 ^ w := pow_pos (by norm_num) w
      have hd : n / 10 ^ w < 10 := by
        rw [Nat.div_lt_iff_lt_mul h10]
        rw [pow_succ] at h
        omega
      have hih := ih (n % 10 ^ w) (Ser.digitStep acc (Ser.digitChar (n / 10 ^ w)))
        (Nat.mod_lt _ h10)
      have key : (acc * 10 + n / 10 ^ w) * 10 ^ w + n % 10 ^ w =
          acc * 10 ^ (w + 1) + n := by
        have hdm : 10 ^ w * (n / 10 ^ w) + n % 10 ^ w = n :=
          Nat.div_add_mod n (10 ^ w)
        calc (acc * 10 + n / 10 ^ w) * 10 ^ w + n % 10 ^ w
            = acc * (10 ^ w * 10) +
              (10 ^ w * (n / 10 ^ w) + n % 10 ^ w) := by ring
          _ = acc * 10 ^ (w + 1) + n := by rw [hdm, pow_succ]
      simp only [Ser.padDigits, List.foldl_cons]
      rw [hih]
      simp only [Ser.digitStep, digitChar_toNat hd]
      rw [key]

theorem digitsVal_pad (w n : Nat) (h : n < 10 ^ w) :
    Ser.digitsVal (Ser.padDigits w n) = n := by
  simpa [Ser.digitsVal] using foldl_digitStep_pad w n 0 h

theorem parseMicro_pad (u : Nat) (hu : u < 10 ^ 6) :
    Ser.parseMicro (Ser.padDigits 6 u) = some (u, []) := by
  have htw : (Ser.padDigits 6 u).takeWhile Char.isDigit = Ser.padDigits 6 u :=
    List.takeWhile_eq_self_iff.mpr (fun c hc => by
      have := padDigits_isDigit 6 u hu c hc
      simpa using this)
  have hlen : (Ser.padDigits 6 u).length = 6 := padDigits_length 6 u
  have htake : (Ser.padDigits 6 u).take 6 = Ser.padDigits 6 u := by
    have h := List.take_length (Ser.padDigits 6 u)
    rwa [hlen] at h
  have hdrop : (Ser.padDigits 6 u).drop 6 = [] := by
    have h := List.drop_length (Ser.padDigits 6 u)
    rwa [hlen] at h
  have hval : Ser.digitsVal (Ser.padDigits 6 u) = u := digitsVal_pad 6 u hu
  have hemp : (Ser.padDigits 6 u).isEmpty = false := by
    cases hpd : Ser.padDigits 6 u with
    | nil => rw [hpd] at hlen; simp at hlen
    | cons a l => rfl
  simp [Ser.parseMicro, htw, htake, hlen, hval, hemp, hdrop]

/-- The field ranges enforced by `PyDateTime.valid` imply the zero-padded
widths `str(datetime)` uses. -/
theorem pydatetime_valid_bounds (dt : Ser.PyDateTime) (h : dt.valid = true) :
    dt.year < 10 ^ 4 ∧ dt.month < 10 ^ 2 ∧ dt.day < 10 ^ 2 ∧
    dt.hour < 10 ^ 2 ∧ dt.minute < 10 ^ 2 ∧ dt.second < 10 ^ 2 ∧
    dt.usec < 10 ^ 6 := by
  unfold Ser.PyDateTime.valid at h
  simp only [Bool.and_eq_true, decide_eq_true_eq] at h
  obtain ⟨⟨⟨⟨⟨⟨⟨⟨⟨hy1, hy2⟩, hmo1⟩, hmo2⟩, hd1⟩, hd2⟩, hho⟩, hmi⟩, hs⟩, hu6⟩ := h
  have hdim : Ser.daysInMonth dt.year dt.month ≤ 31 := by
    unfold Ser.daysInMonth
    split
    · split <;> norm_num
    · split <;> norm_num
  refine ⟨?_, ?_, ?_, ?_, ?_, ?_, ?_⟩ <;> norm_num <;> omega

/-- `str(datetime)` of a timestamp with **zero** microseconds has no
fractional part, and `strptime` with `'%Y-%m-%d %H:%M:%S.%f'` then fails
at the mandatory literal `'.'`. -/
theorem strptime_pystr_usec_zero (dt : Ser.PyDateTime)
    (hvalid : dt.valid = true) (hus : dt.usec = 0) :
    Ser.strptime_dt dt.pystr = none := by
  obtain ⟨hy, hmo, hd, hh, hmi, hs, -⟩ := pydatetime_valid_bounds dt hvalid
  unfold Ser.strptime_dt Ser.PyDateTime.pystr
  rw [hus]
  simp only [reduceIte, List.append_nil]
  rw [parseFixed_pad 4 dt.year _ hy]
  simp only [opt_some_bind]
  rw [expectC_cons]
  simp only [opt_some_bind]
  rw [parseFixed_pad 2 dt.month _ hmo]
  simp only [opt_some_bind]
  rw [expectC_cons]
  simp only [opt_some_bind]
  rw [parseFixed_pad 2 dt.day _ hd]
  simp only [opt_some_bind]
  rw [expectC_cons]
  simp only [opt_some_bind]
  rw [parseFixed_pad 2 dt.hour _ hh]
  simp only [opt_some_bind]
  rw [expectC_cons]
  simp only [opt_some_bind]
  rw [parseFixed_pad 2 dt.minute _ hmi]
  simp only [opt_some_bind]
  rw [expectC_cons]
  simp only [opt_some_bind]
  have hsec := parseFixed_pad 2 dt.second [] hs
  rw [List.append_nil] at hsec
  rw [hsec]
  simp only [opt_some_bind]
  rfl

/-- `strptime` is an exact inverse of `str(datetime)` whenever the
microsecond field is nonzero. -/
theorem strptime_pystr_round (dt : Ser.PyDateTime)
    (hvalid : dt.valid = true) (hus : dt.usec ≠ 0) :
    Ser.strptime_dt dt.pystr = some dt := by
  obtain ⟨hy, hmo, hdd, hho, hmin, hsec, husec⟩ := pydatetime_valid_bounds dt hvalid
  unfold Ser.strptime_dt Ser.PyDateTime.pystr
  rw [if_neg hus]
  rw [parseFixed_pad 4 dt.year _ hy]
  simp only [opt_some_bind]
  rw [expectC_cons]
  simp only [opt_some_bind]
  rw [parseFixed_pad 2 dt.month _ hmo]
  simp only [opt_some_bind]
  rw [expectC_cons]
  simp only [opt_some_bind]
  rw [parseFixed_pad 2 dt.day _ hdd]
  simp only [opt_some_bind]
  rw [expectC_cons]
  simp only [opt_some_bind]
  rw [parseFixed_pad 2 dt.hour _ hho]
  simp only [opt_some_bind]
  rw [expectC_cons]
  simp only [opt_some_bind]
  rw [parseFixed_pad 2 dt.minute _ hmin]
  simp only [opt_some_bind]
  rw [expectC_cons]
  simp only [opt_some_bind]
  rw [show Ser.padDigits 2 dt.second ++ '.' :: Ser.padDigits 6 dt.usec =
      Ser.padDigits 2 dt.second ++ ('.' :: Ser.padDigits 6 dt.usec) from rfl]
  rw [parseFixed_pad 2 dt.second _ hsec]
  simp only [opt_some_bind]
  rw [expectC_cons]
  simp only [opt_some_bind]
  rw [parseMicro_pad dt.usec husec]
  simp only [opt_some_bind]
  show (if dt.valid = true then some dt else none) = some dt
  rw [if_pos hvalid]

theorem except_error_bind {ε α β : Type} (e : ε) (f : α → Except ε β) :
    (Except.error e : Except ε α) >>= f = .error e := rfl

theorem foldr_ofDigits (L : List Nat) :
    L.foldr (fun d acc => acc * 10 + d) 0 = Nat.ofDigits 10 L := by
  induction L with
  | nil => simp [Nat.ofDigits_nil]
  | cons d L ih =>
      simp [Nat.ofDigits_cons, ih]
      ring

theorem digitsVal_natStr (n : Nat) : Ser.digitsVal (Ser.natStr n) = n := by
  by_cases h0 : n = 0
  · subst h0; decide
  · unfold Ser.natStr Ser.digitsVal
    rw [if_neg h0]
    have hlt : ∀ d ∈ Nat.digits 10 n, d < 10 :=
      fun d hd => Nat.digits_lt_base (by norm_num) hd
    rw [List.foldl_map]
    calc ((Nat.digits 10 n).reverse).foldl
            (fun acc d => Ser.digitStep acc (Ser.digitChar d)) 0
        = ((Nat.digits 10 n).reverse).foldl (fun acc d => acc * 10 + d) 0 := by
          apply List.foldl_ext
          intro acc d hd
          rw [List.mem_reverse] at hd
          simp [Ser.digitStep, digitChar_toNat (hlt d hd)]
      _ = (Nat.digits 10 n).foldr (fun d acc => acc * 10 + d) 0 := by
          rw [List.foldl_reverse]
      _ = Nat.ofDigits 10 (Nat.digits 10 n) := foldr_ofDigits _
      _ = n := Nat.ofDigits_digits 10 n

theorem natStr_all_digits (n : Nat) : (Ser.natStr n).all Char.isDigit = true := by
  by_cases h0 : n = 0
  · subst h0; decide
  · unfold Ser.natStr
    rw [if_neg h0]
    rw [List.all_eq_true]
    intro c hc
    simp only [List.mem_map, List.mem_reverse] at hc
    obtain ⟨d, hd, rfl⟩ := hc
    exact digitChar_isDigit (Nat.digits_lt_base (by norm_num) hd)

theorem natStr_ne_nil (n : Nat) : Ser.natStr n ≠ [] := by
  by_cases h0 : n = 0
  · subst h0; decide
  · unfold Ser.natStr
    rw [if_neg h0]
    simp [Nat.digits_ne_nil_iff_ne_zero.mpr h0]

/-- `int(str(n)) = n`: the expiration-time field round-trips exactly. -/
theorem pyIntOfStr_natStr (n : Nat) : Ser.pyIntOfStr (Ser.natStr n) = .ok n := by
  unfold Ser.pyIntOfStr
  rw [if_pos ⟨natStr_ne_nil n, natStr_all_digits n⟩]
  rw [digitsVal_natStr]

/-- A saved token whose `created_at` carries nonzero microseconds is read
back exactly (`Token.from_dict` after `Token.save`). -/
theorem tokenS_roundtrip (userExists : String → Bool) (t : Ser.TokenS)
    (hvalid : t.created_at.valid = true) (hus : t.created_at.usec ≠ 0)
    (hue : userExists t.user = true) :
    Ser.TokenS.get_after_save userExists t = .ok t := by
  unfold Ser.TokenS.get_after_save Ser.TokenS.from_dict Ser.TokenS.as_dict_stored
  simp [Ser.getItem, alookup, string_mk_data, except_ok_bind,
    strptime_pystr_round t.created_at hvalid hus, hue, pyIntOfStr_natStr]

/-- The reconstructed `User` after a store round trip: the stored string
forms come back in place of the optional fields, `password` is restored
by `User.get` from the stored hash. -/
theorem userS_roundtrip (u : UserRec) :
    Ser.UserS_get_after_save u = .ok { u with
      phone := some (Ser.optStr u.phone), city := some (Ser.optStr u.city),
      state := some (Ser.optStr u.state),
      country := some (Ser.optStr u.country),
      password := some (Ser.optStr u.password) } := by
  unfold Ser.UserS_get_after_save Ser.UserS_from_dict Ser.UserS_as_dict_stored
  cases hb : u.enabled <;>
    simp [Ser.getItem, alookup, except_ok_bind, Ser.pyEvalBool, Ser.boolStr, hb]

/-! ### C10 — the datetime serialization drops `.000000`, the parser requires it -/

/-- **C10.**  `Token.save` persists `created_at` as `str(datetime)`, which
omits the fractional-seconds part exactly when the microsecond field is
zero, while `Token.from_dict` re-parses it with the fixed format
`'%Y-%m-%d %H:%M:%S.%f'` that *requires* a fractional part.  Hence every
later lookup of a token whose `created_at` has zero microseconds raises an
untyped `ValueError` instead of returning the token or a typed failure —
regardless of whether the owner exists. -/
theorem C10_token_parse_crash (userExists : String → Bool) (t : Ser.TokenS)
    (hvalid : t.created_at.valid = true) (hus : t.created_at.usec = 0) :
    Ser.TokenS.get_after_save userExists t = .error .valueError := by
  unfold Ser.TokenS.get_after_save Ser.TokenS.from_dict Ser.TokenS.as_dict_stored
  simp [Ser.getItem, alookup, string_mk_data, except_ok_bind, except_error_bind,
    strptime_pystr_usec_zero t.created_at hvalid hus]

/-- Witness for C10: a concrete token created at
`2016-11-09 03:14:15.000000` (zero microseconds) is persisted by `save`
and then fails to parse on lookup with `ValueError`, even though its
owner exists. -/
theorem C10_witness :
    Ser.TokenS.get_after_save (fun _ => true)
        { hash := "h1",
          created_at :=
            { year := 2016, month := 11, day := 9, hour := 3, minute := 14,
              second := 15, usec := 0 },
          user := "alice", expiration_time := 86400 } =
      .error .valueError :=
  C10_token_parse_crash (fun _ => true) _ (by decide) rfl

/-! ### C2 — token validity and invalidation -/

/-- **C2 counterexample.**  The claim says invalidation makes `is_valid`
false *unconditionally* at every subsequent check.  The code sets
`expiration_time = 0`, after which `is_valid` computes
`now <= created_at`, which still holds when the check happens at the very
timestamp at which the token was created: for the sample token created at
time 10, invalidating and checking validity at time 10 yields `true`. -/
theorem C2_counterexample :
    (TokenRec.invalidate Sample.db0 Sample.tk).2.is_valid 10 = true := by decide

/-- **C2 (amended).**  A token is valid iff `now <= created_at +
expiration_time`; invalidating sets `expiration_time` to 0 and persists
the token under its key; after invalidation `is_valid` is false at every
check occurring strictly after `created_at` (not unconditionally: at
`now = created_at` it is still true, see the counterexample); and
invalidating an already-invalidated token changes nothing (idempotent). -/
theorem C2_token_validity :
    (∀ (now : Nat) (t : TokenRec),
        t.is_valid now = true ↔ now ≤ t.created_at + t.expiration_time) ∧
    (∀ (db : DB) (t : TokenRec),
        (TokenRec.invalidate db t).2.expiration_time = 0 ∧
        alookup (TokenRec.invalidate db t).1.tokens t.redis_key =
          some (TokenRec.invalidate db t).2) ∧
    (∀ (now : Nat) (db : DB) (t : TokenRec), t.created_at < now →
        (TokenRec.invalidate db t).2.is_valid now = false) ∧
    (∀ (db : DB) (t : TokenRec),
        TokenRec.invalidate (TokenRec.invalidate db t).1
            (TokenRec.invalidate db t).2 =
          TokenRec.invalidate db t) := by
  refine ⟨?_, ?_, ?_, ?_⟩
  · intro now t
    simp [TokenRec.is_valid, TokenRec.expires_at]
  · intro db t
    refine ⟨rfl, ?_⟩
    show alookup (assocSet db.tokens _ _) _ = _
    have : ({ t with expiration_time := 0 } : TokenRec).redis_key = t.redis_key := rfl
    rw [← this]
    exact alookup_assocSet_self ..
  · intro now db t h
    simp [TokenRec.invalidate, TokenRec.is_valid, TokenRec.expires_at]
    omega
  · intro db t
    simp [TokenRec.invalidate, TokenRec.save, saddL_saddL_self,
      assocSet_assocSet_self]

/-- Witness for C2: the amended claim evaluated on the sample token
(created at 10): validity at 50, the persisted invalidation, falseness of
`is_valid` at 11 > 10, and idempotence. -/
theorem C2_witness :
    (Sample.tk.is_valid 50 = true ↔ 50 ≤ 10 + 100) ∧
    ((TokenRec.invalidate Sample.db0 Sample.tk).2.is_valid 11 = false) := by
  constructor
  · have h := C2_token_validity.1 50 Sample.tk
    simpa [Sample.tk] using h
  · exact C2_token_validity.2.2.1 11 Sample.db0 Sample.tk (by decide)

/-! ### C3 — current-token lookup reads only the head of the list -/

/-- **C3.**  `User.token` reads only the most recently pushed entry of the
user's token list: an empty list yields `none`; a head key resolving to a
token `t` yields `some t` exactly when `t` is valid and `none` when it is
invalid; and the result never depends on the entries behind the head. -/
theorem C3_current_token_lookup :
    (∀ (db : DB) (now : Nat) (u : String),
        (alookup db.tokenLists (userTokensKey u)).getD [] = [] →
        UserRec.token db now u = .ok none) ∧
    (∀ (db : DB) (now : Nat) (u k : String) (rest : List String) (t : TokenRec),
        (alookup db.tokenLists (userTokensKey u)).getD [] = k :: rest →
        alookup db.tokens k = some t →
        (alookup db.users (userKey t.user)).isSome →
        UserRec.token db now u = .ok (if t.is_valid now then some t else none)) ∧
    (∀ (db : DB) (now : Nat) (u k : String) (rest rest' : List String),
        UserRec.token (db.setTokenList u (k :: rest)) now u =
        UserRec.token (db.setTokenList u (k :: rest')) now u) :=
  ⟨userToken_nil, userToken_cons, userToken_tail_irrel⟩

/-- Witness for C3 on the sample store: valid head token at time 20,
expired head token at time 200 (the same head, no older entry consulted),
and the empty list. -/
theorem C3_witness :
    UserRec.token Sample.db0 20 "alice" = .ok (some Sample.tk) ∧
    UserRec.token Sample.db0 200 "alice" = .ok none ∧
    UserRec.token Sample.db0noTokens 20 "alice" = .ok none := by
  refine ⟨?_, ?_, ?_⟩
  · have h := C3_current_token_lookup.2.1 Sample.db0 20 "alice" "token:h1" []
      Sample.tk (by decide) (by decide) (by decide)
    simpa using h
  · have h := C3_current_token_lookup.2.1 Sample.db0 200 "alice" "token:h1" []
      Sample.tk (by decide) (by decide) (by decide)
    simpa using h
  · exact C3_current_token_lookup.1 Sample.db0noTokens 20 "alice" (by decide)

/-! ### C5 — napp creation/update ownership checks -/

theorem update_from_dict_always_attrError (render : Option String → String)
    (remoteReadme : Option String) (db : NappM.NappDB) (napp : NappM.NappRec)
    (attrs : List (String × NappM.AttrVal)) :
    NappM.update_from_dict render remoteReadme db napp attrs =
      .error .attributeError := by
  unfold NappM.update_from_dict
  cases hnu : napp.user <;>
    simp [except_ok_bind, except_error_bind, NappM.pyDictGetAttr]

theorem new_napp_ok (render : Option String → String) (remoteReadme : Option String)
    (db : NappM.NappDB) (attrs : List (String × NappM.AttrVal))
    (username : String) (napp : NappM.NappRec)
    (hinit : NappM.napp_init remoteReadme attrs (some username) = .ok napp)
    (hau : username = napp.author) :
    NappM.new_napp_from_dict render remoteReadme db attrs username =
      .ok (napp, napp.save render db) := by
  unfold NappM.new_napp_from_dict
  rw [hinit]
  simp [except_ok_bind, hau]

theorem new_napp_invalid_author (render : Option String → String)
    (remoteReadme : Option String) (db : NappM.NappDB)
    (attrs : List (String × NappM.AttrVal)) (username : String)
    (napp : NappM.NappRec)
    (hinit : NappM.napp_init remoteReadme attrs (some username) = .ok napp)
    (hau : username ≠ napp.author) :
    NappM.new_napp_from_dict render remoteReadme db attrs username =
      .error .invalidAuthor := by
  unfold NappM.new_napp_from_dict
  rw [hinit]
  simp [except_ok_bind, hau]

/-- **C5 theorem.**  Creation (`new_napp_from_dict`) behaves as the claim
says: with the populated attributes' author differing from the acting
user's username it raises `InvalidAuthor` and persists nothing, otherwise
it saves the record and indices.  Updating, however, never reaches its
ownership check: `update_from_dict` evaluates `attributes.author` on a
plain dict — after `self.user.username`, which also has no attribute when
the user is `None` — so it raises `AttributeError` on *every* call. -/
theorem C5_napp_ownership :
    (∀ (render : Option String → String) (remoteReadme : Option String)
        (db : NappM.NappDB) (attrs : List (String × NappM.AttrVal))
        (username : String) (napp : NappM.NappRec),
        NappM.napp_init remoteReadme attrs (some username) = .ok napp →
        username = napp.author →
        NappM.new_napp_from_dict render remoteReadme db attrs username =
          .ok (napp, napp.save render db)) ∧
    (∀ (render : Option String → String) (remoteReadme : Option String)
        (db : NappM.NappDB) (attrs : List (String × NappM.AttrVal))
        (username : String) (napp : NappM.NappRec),
        NappM.napp_init remoteReadme attrs (some username) = .ok napp →
        username ≠ napp.author →
        NappM.new_napp_from_dict render remoteReadme db attrs username =
          .error .invalidAuthor) ∧
    (∀ (render : Option String → String) (remoteReadme : Option String)
        (db : NappM.NappDB) (napp : NappM.NappRec)
        (attrs : List (String × NappM.AttrVal)),
        NappM.update_from_dict render remoteReadme db napp attrs =
          .error .attributeError) :=
  ⟨new_napp_ok, new_napp_invalid_author, update_from_dict_always_attrError⟩

/-- Witness for C5: alice's upload is created and saved; bob cannot
create a napp authored by alice (`InvalidAuthor`); updating alice's own
napp with its own attributes — the ownership match the claim says must
succeed — raises `AttributeError` instead. -/
theorem C5_witness :
    NappM.new_napp_from_dict Sample.renderId none {} Sample.nappAttrs "alice" =
      .ok (Sample.napp0, Sample.napp0.save Sample.renderId {}) ∧
    NappM.new_napp_from_dict Sample.renderId none {} Sample.nappAttrs "bob" =
      .error .invalidAuthor ∧
    NappM.update_from_dict Sample.renderId none {} Sample.napp0 Sample.nappAttrs =
      .error .attributeError := by
  refine ⟨?_, ?_, ?_⟩
  · exact C5_napp_ownership.1 Sample.renderId none {} Sample.nappAttrs "alice"
      Sample.napp0 (by decide) rfl
  · exact C5_napp_ownership.2.1 Sample.renderId none {} Sample.nappAttrs "bob"
      { Sample.napp0 with user := some "bob" } (by decide) (by decide)
  · exact C5_napp_ownership.2.2 Sample.renderId none {} Sample.napp0
      Sample.nappAttrs

/-! ### C9 — remote-failure propagation vs the swallowed readme backfill -/

/-- **C9.**  The explicit sync `update_from_git` propagates
`RepositoryNotReachable` to its caller whenever the fetch-and-parse of
the remote `kytos.json` fails; the opportunistic readme backfill inside
`_populate_from_dict` swallows the very same failure: population still
succeeds and the readme stays empty. -/
theorem C9_remote_failure_policy :
    (∀ (render : Option String → String) (remoteReadme : Option String)
        (db : NappM.NappDB) (napp : NappM.NappRec),
        NappM.update_from_git render none remoteReadme db napp =
          .error .repositoryNotReachable) ∧
    (∀ (attrs : List (String × NappM.AttrVal)) (n0 n' : NappM.NappRec),
        NappM.populateFields attrs n0 = .ok n' → n'.readme = "" →
        NappM.populate_from_dict none attrs n0 = .ok n') := by
  constructor
  · intro render remoteReadme db napp
    unfold NappM.update_from_git NappM.json_from_git
    rfl
  · intro attrs n0 n' hf hr
    unfold NappM.populate_from_dict
    rw [hf]
    simp [except_ok_bind, hr, NappM.update_readme_from_git]

/-- Witness for C9: syncing the sample napp against an unreachable remote
fails with `RepositoryNotReachable`, while populating the readme-less
upload with the same unreachable remote succeeds and leaves the readme
empty. -/
theorem C9_witness :
    NappM.update_from_git Sample.renderId none none {} Sample.napp0 =
      .error .repositoryNotReachable ∧
    NappM.populate_from_dict none Sample.nappAttrsNoReadme { user := none } =
      .ok { Sample.napp0 with readme := "", user := none } := by
  constructor
  · exact C9_remote_failure_policy.1 Sample.renderId none {} Sample.napp0
  · exact C9_remote_failure_policy.2 Sample.nappAttrsNoReadme { user := none }
      { Sample.napp0 with readme := "", user := none } (by decide) rfl

/-! ### C8 — store round trips (corrected: the readme does not survive) -/

/-- Reconstruction of a napp from the hash the store actually holds
(the write-coerced image of `as_dict`): every field comes back except
that `readme` holds the *rendered* form of `readme_rst`, a `None`-valued
`long_description` comes back as the string `"None"`, and the owning
`user` is not restored.  The hypothesis keeps the rendered readme
nonempty, so reconstruction does not trigger the remote readme
backfill. -/
theorem napp_store_roundtrip (render : Option String → String)
    (remoteReadme : Option String) (n : NappM.NappRec)
    (hr : render n.readme_rst ≠ "") :
    NappM.napp_from_store remoteReadme (NappM.storedDict (n.as_dict render)) =
      .ok { n with
        readme := render n.readme_rst,
        long_description := some (Ser.optStr n.long_description),
        user := none } := by
  unfold NappM.napp_from_store NappM.napp_init
  have hfields : NappM.populateFields (NappM.storedDict (n.as_dict render))
      { user := none } =
      .ok { n with
        readme := render n.readme_rst,
        long_description := some (Ser.optStr n.long_description),
        user := none } := by
    unfold NappM.NappRec.as_dict
    cases hld : n.long_description <;>
      simp [NappM.populateFields, NappM.schemaKeys, NappM.populateStep,
        NappM.requiredKeys, NappM.setStrField, NappM.setListField,
        NappM.storedDict, NappM.storeCoerce, NappM.optAttr,
        NappM.asStr, NappM.asOptStr, Ser.optStr,
        assocSet, alookup, except_ok_bind]
  unfold NappM.populate_from_dict
  rw [hfields]
  simp only [except_ok_bind, hr, if_neg]
  simp
  rfl

/-- **C8 counterexample.**  A napp with an *empty* readme (allowed: the
schema does not require one): `as_dict` persists
`readme = render(readme_rst)`, which falls back to `long_description`
(here rendered with the most charitable renderer, the identity on
strings), so the reconstructed napp's readme is the long description
`"docs"`, not the original empty text — the readme does not come back
"exactly as the original text". -/
theorem C8_counterexample :
    NappM.napp_from_store none
        (NappM.storedDict
          (NappM.NappRec.as_dict Sample.renderId Sample.nappEmptyReadme)) =
      .ok { Sample.nappEmptyReadme with readme := "docs" } ∧
    Sample.nappEmptyReadme.readme = "" := by
  refine ⟨by decide, rfl⟩

/-- **C8 (amended).**  Round trips through the persisted representation:
a `User` is reconstructed equal to the original whenever its optional
fields and password are present (the password is stripped from public
views only and restored by the lookup); a `Token` is reconstructed equal
whenever its `created_at` is in range with nonzero microseconds and its
owner exists; a `Napp` — provided its rendered readme is nonempty, so
that reconstruction does not additionally trigger the remote readme
backfill — comes back equal in every field **except**: the readme,
persisted as the rendered form of `readme_rst` rather than the original
text; a `None`-valued `long_description`, which comes back as the string
`"None"` under the store's `str` coercion (just as `None`-valued `User`
fields do); and the owning user, which reconstruction leaves unset. -/
theorem C8_roundtrip :
    (∀ (u : UserRec) (pw ph ci st co : String),
        u.password = some pw → u.phone = some ph → u.city = some ci →
        u.state = some st → u.country = some co →
        Ser.UserS_get_after_save u = .ok u) ∧
    (∀ (userExists : String → Bool) (t : Ser.TokenS),
        t.created_at.valid = true → t.created_at.usec ≠ 0 →
        userExists t.user = true →
        Ser.TokenS.get_after_save userExists t = .ok t) ∧
    (∀ (render : Option String → String) (remoteReadme : Option String)
        (n : NappM.NappRec), render n.readme_rst ≠ "" →
        NappM.napp_from_store remoteReadme
            (NappM.storedDict (n.as_dict render)) =
          .ok { n with
            readme := render n.readme_rst,
            long_description := some (Ser.optStr n.long_description),
            user := none }) := by
  refine ⟨?_, tokenS_roundtrip, napp_store_roundtrip⟩
  intro u pw ph ci st co hpw hph hci hst hco
  have h := userS_roundtrip u
  rw [hpw, hph, hci, hst, hco] at h
  have hu : { u with
      phone := some ph,
      city := some ci,
      state := some st,
      country := some co,
      password := some pw } = u := by
    cases u
    simp_all
  simpa [Ser.optStr, hu] using h

/-- Witness for C8: the fully-populated user `bob2`, the
nonzero-microseconds token, alice's napp (nonempty readme, the
charitable renderer), and the napp with an absent long description —
whose reconstruction exhibits the `None` ↦ `"None"` coercion — all
round-trip as the amended claim states. -/
theorem C8_witness :
    Ser.UserS_get_after_save Sample.bob2 = .ok Sample.bob2 ∧
    Ser.TokenS.get_after_save (fun _ => true) Sample.tkS = .ok Sample.tkS ∧
    NappM.napp_from_store none
        (NappM.storedDict
          (NappM.NappRec.as_dict Sample.renderId Sample.napp0)) =
      .ok { Sample.napp0 with
        readme := "hello",
        long_description := some "docs",
        user := none } ∧
    NappM.napp_from_store none
        (NappM.storedDict
          (NappM.NappRec.as_dict Sample.renderId Sample.nappNoLongDesc)) =
      .ok { Sample.nappNoLongDesc with
        readme := "hello",
        long_description := some "None" } := by
  refine ⟨?_, ?_, ?_, ?_⟩
  · exact C8_roundtrip.1 Sample.bob2 "pw-hash2" "5551234" "Porto Alegre"
      "RS" "BR" rfl rfl rfl rfl rfl
  · exact C8_roundtrip.2.1 (fun _ => true) Sample.tkS (by decide)
      (by decide) rfl
  · have h := C8_roundtrip.2.2 Sample.renderId none Sample.napp0 (by decide)
    simpa [Sample.renderId, Sample.napp0, NappM.NappRec.readme_rst,
      Ser.optStr] using h
  · have h := C8_roundtrip.2.2 Sample.renderId none Sample.nappNoLongDesc
      (by decide)
    simpa [Sample.renderId, Sample.nappNoLongDesc, Sample.napp0,
      NappM.NappRec.readme_rst, Ser.optStr] using h

/-! ### C6 — the versioned-filename helper always raises `TypeError` -/

theorem versionLoop_int_zero (matchFn : String → Option String) :
    ∀ files : List String,
      NappsApi.versionLoop matchFn files (.int 0) = .ok (.int 0) ∨
      NappsApi.versionLoop matchFn files (.int 0) = .error .typeError := by
  intro files
  induction files with
  | nil => left; rfl
  | cons f fs ih =>
      unfold NappsApi.versionLoop
      cases matchFn f with
      | none => simpa using ih
      | some g => right; rfl

/-- **C6 theorem.**  `_napp_versioned_name` raises `TypeError` on *every*
directory listing, for every match function and basename: when no file
matches, `counter` is still the int `0` and the final
`basename + counter + '.napp'` concatenates `str` with `int`; on the
first match, `matched.group(1) > counter` compares a `str` with the int
`0`.  (It also never adds 1 to the largest counter — `counter =
matched.group(1)` — so even a type-repaired version would return the
*existing* maximal name, not the next one.) -/
theorem C6_versioned_name_crash :
    ∀ (matchFn : String → Option String) (basename : String)
      (files : List String),
      NappsApi.napp_versioned_name matchFn basename files =
        .error .typeError := by
  intro matchFn basename files
  unfold NappsApi.napp_versioned_name
  rcases versionLoop_int_zero matchFn files with h | h <;> rw [h] <;> rfl

/-! ### C7 — the allowed-file check rejects every filename -/

theorem afterLastDot_no_dot (cs : List Char) :
    '.' ∉ NappsApi.afterLastDot cs := by
  unfold NappsApi.afterLastDot
  intro h
  rw [List.mem_reverse] at h
  have := List.mem_takeWhile_imp h
  simp at this

/-- **C7 counterexample.**  The claim says `_allowed_file` returns `true`
for every filename ending in `'.napp'`; it returns `false` for
`"foo.napp"`: the extension is computed *without* the dot (`"napp"`)
while the permitted set's only element carries the dot (`".napp"`). -/
theorem C7_counterexample : NappsApi.allowed_file "foo.napp" = false := by
  decide

/-- **C7 theorem.**  The part after the last dot never contains a dot, so
it never equals the permitted set's sole member `".napp"`: `_allowed_file`
returns `false` for *every* filename — those ending in `'.napp'` and
those with no dot alike. -/
theorem C7_allowed_file_false :
    ∀ filename : String, NappsApi.allowed_file filename = false := by
  intro f
  have hne : String.mk (NappsApi.afterLastDot f.data) ∉
      NappsApi.ALLOWED_EXTENSIONS := by
    simp only [NappsApi.ALLOWED_EXTENSIONS, List.mem_singleton]
    intro heq
    have hd := congrArg String.data heq
    have hmem : '.' ∈ NappsApi.afterLastDot f.data := by
      rw [show String.data (String.mk (NappsApi.afterLastDot f.data)) =
          NappsApi.afterLastDot f.data from rfl] at hd
      rw [hd]
      exact List.mem_cons_self _ _
    exact afterLastDot_no_dot f.data hmem
  unfold NappsApi.allowed_file
  rw [decide_eq_false hne]
  simp

end Proofs
